import Mathlib

/-!
Verification of the pipecat turn-taking analyzer and leaf-service modules.

Shallow embedding of:
* `src/pipecat/audio/turn/base_smart_turn.py` (class `BaseSmartTurn`),
* `src/pipecat/services/sarvam/stt.py` (language tables, `run_stt`),
* `src/pipecat/services/xtts/tts.py` (`run_tts`).

Times and audio samples are modelled as rationals: every number the Python
code manipulates on the paths under study (int16 samples divided by the
power of two 32768, millisecond counts obtained from sample counts) is
exactly representable, so ℚ is a faithful carrier.  Wall-clock reads
(`time.time()`) are modelled by an explicit `now` argument: the code reads
the clock up to twice per `append_audio` call, a few microseconds apart;
the model uses a single instant per call.
-/

namespace SmartTurn

/-- Decision enum `EndOfTurnState` from `base_turn_analyzer.py` (imported by
`base_smart_turn.py`): a turn is either still in progress or finished. -/
inductive EndOfTurnState where
  | INCOMPLETE
  | COMPLETE
deriving DecidableEq, Repr, BEq

/-- Module-level constant `USE_ONLY_LAST_VAD_SEGMENT = True` (line 21). -/
def USE_ONLY_LAST_VAD_SEGMENT : Bool := true

/-- `SmartTurnParams` (lines 24-27): configuration of the analyzer. -/
structure SmartTurnParams where
  stop_secs : ℚ
  pre_speech_ms : ℚ
  max_duration_secs : ℚ
deriving DecidableEq, Repr

/-- Default parameter values `STOP_SECS = 3`, `PRE_SPEECH_MS = 0`,
`MAX_DURATION_SECONDS = 8` (lines 18-20). -/
def defaultParams : SmartTurnParams := { stop_secs := 3, pre_speech_ms := 0, max_duration_secs := 8 }

/-- Mutable state of a `BaseSmartTurn` instance (lines 41-44): the buffered
(timestamp, float-chunk) pairs, the speech-triggered flag, the trailing
silence accumulator in milliseconds and the optional speech-start time. -/
structure SmartTurnState where
  audio_buffer : List (ℚ × List ℚ)
  speech_triggered : Bool
  silence_ms : ℚ
  speech_start_time : Option ℚ
deriving DecidableEq, Repr

/-- State set up by `__init__` (lines 41-44). -/
def initialState : SmartTurnState :=
  { audio_buffer := [], speech_triggered := false, silence_ms := 0, speech_start_time := none }

/-- Line 53: one int16 sample cast to float32 and divided by 32768.0.  Both
the cast and the division by a power of two are exact in float32 for the
int16 range, so the rational value is the exact float the code computes. -/
def int16ToFloat (s : ℤ) : ℚ := (s : ℚ) / 32768

/-- Lines 52-53: the incoming byte buffer decoded as int16 samples and
normalized sample-wise to float32. -/
def normalizeChunk (samples : List ℤ) : List ℚ := samples.map int16ToFloat

/-- Method `_clear` (lines 98-105): reset for the next turn, keeping
`_speech_triggered` true exactly when the decision was INCOMPLETE. -/
def _clear (turn_state : EndOfTurnState) (_st : SmartTurnState) : SmartTurnState :=
  { audio_buffer := []
    speech_triggered := turn_state == EndOfTurnState.INCOMPLETE
    silence_ms := 0
    speech_start_time := none }

/-- Retention window `max_buffer_time` (lines 78-82). -/
def maxBufferTime (p : SmartTurnParams) : ℚ :=
  p.pre_speech_ms / 1000 + p.stop_secs + p.max_duration_secs

/-- Method `append_audio` (lines 50-88).  `samples` is the raw chunk decoded
as int16 values; `now` is the value of `time.time()` during the call;
`sample_rate` is `self._sample_rate`.  Returns the decision together with
the updated state. -/
def append_audio (p : SmartTurnParams) (sample_rate : ℚ) (st : SmartTurnState)
    (now : ℚ) (samples : List ℤ) (is_speech : Bool) : EndOfTurnState × SmartTurnState :=
  let buf0 := st.audio_buffer ++ [(now, normalizeChunk samples)]
  if is_speech then
    (EndOfTurnState.INCOMPLETE,
      { audio_buffer := buf0
        speech_triggered := true
        silence_ms := 0
        speech_start_time := some (st.speech_start_time.getD now) })
  else
    if st.speech_triggered then
      let chunk_duration_ms : ℚ := (samples.length : ℚ) / (sample_rate / 1000)
      let silence1 := st.silence_ms + chunk_duration_ms
      if p.stop_secs * 1000 ≤ silence1 then
        (EndOfTurnState.COMPLETE,
          _clear EndOfTurnState.COMPLETE
            { st with audio_buffer := buf0, silence_ms := silence1 })
      else
        (EndOfTurnState.INCOMPLETE, { st with audio_buffer := buf0, silence_ms := silence1 })
    else
      (EndOfTurnState.INCOMPLETE,
        { st with audio_buffer :=
            buf0.dropWhile (fun c => decide (c.1 < now - maxBufferTime p)) })

/-- Result dictionary of the injected endpoint classifier
(`_predict_endpoint`, lines 155-168): a prediction value and a
confidence. -/
structure Prediction where
  prediction : ℤ
  probability : ℚ

/-- Line 130: `max_samples = int(self._params.max_duration_secs * self.sample_rate)`,
modelled for the nonnegative products arising from the configurations in
the claims (`int` truncation coincides with the floor there). -/
def maxSamples (p : SmartTurnParams) (sample_rate : ℚ) : ℕ :=
  (⌊p.max_duration_secs * sample_rate⌋).toNat

/-- Lines 114-125: the segment extracted from the buffer, starting at the
first chunk whose timestamp is at least `speech_start_time - pre_speech_ms / 1000`
(index 0 when no chunk qualifies, as in the Python loop) and running to the
end of the buffer, concatenated into one sample list. -/
def rawSegment (p : SmartTurnParams) (speech_start : ℚ) (buf : List (ℚ × List ℚ)) : List ℚ :=
  let start_time := speech_start - p.pre_speech_ms / 1000
  let i := buf.findIdx (fun c => decide (start_time ≤ c.1))
  let start_index := if i = buf.length then 0 else i
  ((buf.drop start_index).map (fun c => c.2)).flatten

/-- Lines 129-133: keep only the most recent `max_samples` samples when the
segment is longer.  The Python slice `segment_audio[-max_samples:]` keeps
the whole array when `max_samples = 0` (a negative zero index is plain 0),
which the model reproduces. -/
def clampSegment (seg : List ℚ) (max_samples : ℕ) : List ℚ :=
  if max_samples < seg.length then
    if max_samples = 0 then seg else seg.drop (seg.length - max_samples)
  else seg

/-- Method `_process_speech_segment` (lines 107-153).  A Python `TypeError`
(raised on line 114 when `self._speech_start_time` is `None` while the
buffer is nonempty) is modelled as `Except.error`. -/
def _process_speech_segment (predict : List ℚ → Prediction) (p : SmartTurnParams)
    (sample_rate : ℚ) (speech_start_time : Option ℚ) (audio_buffer : List (ℚ × List ℚ)) :
    Except String EndOfTurnState :=
  if audio_buffer.isEmpty then
    Except.ok EndOfTurnState.INCOMPLETE
  else
    match speech_start_time with
    | none => Except.error "TypeError: unsupported operand types NoneType and float"
    | some t0 =>
      let segment_audio := clampSegment (rawSegment p t0 audio_buffer) (maxSamples p sample_rate)
      if 0 < segment_audio.length then
        Except.ok
          (if (predict segment_audio).prediction = 1 then EndOfTurnState.COMPLETE
           else EndOfTurnState.INCOMPLETE)
      else
        Except.ok EndOfTurnState.INCOMPLETE

/-- Method `analyze_end_of_turn` (lines 90-96): run the segment analysis,
then clear state when the decision is COMPLETE or (always, since
`USE_ONLY_LAST_VAD_SEGMENT` is true) after any decision.  An exception
from `_process_speech_segment` propagates without touching the state. -/
def analyze_end_of_turn (predict : List ℚ → Prediction) (p : SmartTurnParams)
    (sample_rate : ℚ) (st : SmartTurnState) :
    Except String (EndOfTurnState × SmartTurnState) :=
  match _process_speech_segment predict p sample_rate st.speech_start_time st.audio_buffer with
  | Except.error e => Except.error e
  | Except.ok state =>
    Except.ok (state,
      if state == EndOfTurnState.COMPLETE || USE_ONLY_LAST_VAD_SEGMENT then _clear state st
      else st)

/-- Sample rate used by the concrete traces below: 10 samples per second,
so a one-sample chunk lasts exactly 100 ms
(`len / (sample_rate / 1000) = 1 / (10 / 1000) = 100`). -/
def traceRate : ℚ := 10

/-- Concrete trace for the silence-completion property: one 100 ms speech
chunk at time 0 followed by `n` successive 100 ms silence chunks, fed to a
fresh analyzer with the default parameters (`stop_secs = 3.0`).
`c1_silences n` is the decision returned by the last call together with the
state after it. -/
def c1_silences : ℕ → EndOfTurnState × SmartTurnState
  | 0 => append_audio defaultParams traceRate initialState 0 [0] true
  | n + 1 =>
    append_audio defaultParams traceRate (c1_silences n).2 (((n : ℚ) + 1) / 10) [0] false

/-- The state `_clear INCOMPLETE` produces: empty buffer, zero silence, no
speech-start time, but `speech_triggered` still true. -/
def clearedTriggered : SmartTurnState :=
  { audio_buffer := [], speech_triggered := true, silence_ms := 0, speech_start_time := none }

/-- Concrete trace continuing from `clearedTriggered` (the state left behind
by an INCOMPLETE `analyze_end_of_turn`) with `n` successive 100 ms
silence-only chunks. -/
def c9_silences : ℕ → EndOfTurnState × SmartTurnState
  | 0 => (EndOfTurnState.INCOMPLETE, clearedTriggered)
  | n + 1 =>
    append_audio defaultParams traceRate (c9_silences n).2 (((n : ℚ) + 1) / 10) [0] false

/-- Classifier stub reporting an incomplete turn (prediction 0). -/
def predictIncomplete : List ℚ → Prediction := fun _ => { prediction := 0, probability := 0 }

/-- Classifier stub reporting a complete turn (prediction 1). -/
def predictComplete : List ℚ → Prediction := fun _ => { prediction := 1, probability := 1 }

/-- Analyzer state reached by a single non-speech `append_audio` on a fresh
instance: one buffered chunk, speech never triggered, no speech-start
time. -/
def untriggeredNonempty : SmartTurnState :=
  { audio_buffer := [(0, [0])], speech_triggered := false, silence_ms := 0,
    speech_start_time := none }

/-- Analyzer state with one buffered speech chunk and a recorded
speech-start time. -/
def oneChunkTriggered : SmartTurnState :=
  { audio_buffer := [(0, [1/2])], speech_triggered := true, silence_ms := 0,
    speech_start_time := some 0 }

/-- Analyzer state whose silence accumulator is 50 ms short of the default
3000 ms threshold. -/
def nearTimeout : SmartTurnState :=
  { audio_buffer := [(0, [1/2])], speech_triggered := true, silence_ms := 2950,
    speech_start_time := some 0 }

/-- The fully reset state `_clear COMPLETE` produces: empty buffer, not
triggered, zero accumulator, no speech-start time. -/
def clearedUntriggered : SmartTurnState :=
  { audio_buffer := [], speech_triggered := false, silence_ms := 0, speech_start_time := none }

end SmartTurn

namespace Pipecat

/-- The members of the `Language` enum
(`pipecat.transcriptions.language.Language`) referenced by the two service
modules under study: the thirteen languages of the Sarvam tables in
`services/sarvam/stt.py` plus the base languages of the XTTS table in
`services/xtts/tts.py`, which are outside the Sarvam tables and stand for
the unsupported side of the mapping. -/
inductive Language where
  | AS_IN | BN_IN | CS | DE | EN | EN_IN | EN_US | ES | FR | GU_IN | HI | HI_IN
  | HU | IT | JA | KN_IN | KO | ML_IN | MR_IN | NL | OR_IN | PA_IN | PL | PT
  | RU | TA_IN | TE_IN | TR | ZH
deriving DecidableEq, Repr

end Pipecat

namespace Sarvam

open Pipecat

/-- Function `language_to_sarvam_language` (`services/sarvam/stt.py`
lines 83-109): dictionary lookup over the thirteen supported languages,
defaulting to the Hindi code. -/
def language_to_sarvam_language : Language → String
  | Language.BN_IN => "bn-IN"
  | Language.GU_IN => "gu-IN"
  | Language.HI_IN => "hi-IN"
  | Language.KN_IN => "kn-IN"
  | Language.ML_IN => "ml-IN"
  | Language.MR_IN => "mr-IN"
  | Language.TA_IN => "ta-IN"
  | Language.TE_IN => "te-IN"
  | Language.PA_IN => "pa-IN"
  | Language.OR_IN => "od-IN"
  | Language.EN_US => "en-US"
  | Language.EN_IN => "en-IN"
  | Language.AS_IN => "as-IN"
  | _ => "hi-IN"

/-- Method `_map_language_code_to_enum` (lines 381-399): dictionary lookup
over the thirteen Sarvam codes, defaulting to `Language.HI_IN`. -/
def map_language_code_to_enum (code : String) : Language :=
  if code = "bn-IN" then Language.BN_IN
  else if code = "gu-IN" then Language.GU_IN
  else if code = "hi-IN" then Language.HI_IN
  else if code = "kn-IN" then Language.KN_IN
  else if code = "ml-IN" then Language.ML_IN
  else if code = "mr-IN" then Language.MR_IN
  else if code = "ta-IN" then Language.TA_IN
  else if code = "te-IN" then Language.TE_IN
  else if code = "pa-IN" then Language.PA_IN
  else if code = "od-IN" then Language.OR_IN
  else if code = "en-US" then Language.EN_US
  else if code = "en-IN" then Language.EN_IN
  else if code = "as-IN" then Language.AS_IN
  else Language.HI_IN

/-- The thirteen languages present in the `SARVAM_LANGUAGES` dictionary. -/
def supportedLanguages : List Language :=
  [Language.BN_IN, Language.GU_IN, Language.HI_IN, Language.KN_IN, Language.ML_IN,
   Language.MR_IN, Language.TA_IN, Language.TE_IN, Language.PA_IN, Language.OR_IN,
   Language.EN_US, Language.EN_IN, Language.AS_IN]

/-- The thirteen Sarvam codes present in the `_map_language_code_to_enum`
dictionary. -/
def supportedCodes : List String :=
  ["bn-IN", "gu-IN", "hi-IN", "kn-IN", "ml-IN", "mr-IN", "ta-IN", "te-IN",
   "pa-IN", "od-IN", "en-US", "en-IN", "as-IN"]

/-- Outcome of the awaited Sarvam SDK send call (`transcribe` or
`translate`): it either returns or raises. -/
inductive SendOutcome where
  | ok
  | raised (msg : String)

/-- Observable effects of one `run_stt` call: the generator always yields
`None` once, and may push an `ErrorFrame` first. -/
inductive STTEmit where
  | yieldNone
  | pushError (msg : String)
deriving DecidableEq, Repr

/-- Method `run_stt` (lines 208-242): with no connected socket the audio is
dropped after a warning log; otherwise the audio is sent and an exception
from the send is converted into an `ErrorFrame` via `push_error`.  The
base64 encoding and the saarika/translate method choice do not affect the
emitted frames and are left abstract inside `SendOutcome`. -/
def run_stt (socket_connected : Bool) (send : SendOutcome) : List STTEmit :=
  if !socket_connected then
    [STTEmit.yieldNone]
  else
    match send with
    | SendOutcome.ok => [STTEmit.yieldNone]
    | SendOutcome.raised m =>
      [STTEmit.pushError ("Failed to send audio: " ++ m), STTEmit.yieldNone]

end Sarvam

namespace XTTS

/-- Frames yielded by `run_tts` (`services/xtts/tts.py`). -/
inductive TTSFrame where
  | errorFrame (msg : String)
  | ttsStarted
  | ttsStopped
  | ttsAudioRaw (audio : List Nat)
deriving DecidableEq, Repr

/-- Whether a frame is an `ErrorFrame`. -/
def isErrorFrame : TTSFrame → Bool
  | TTSFrame.errorFrame _ => true
  | _ => false

/-- Outcome of the `aiohttp` POST to `/tts_stream`: HTTP status, body text
(read on error), and the streamed byte chunks (bytes as naturals). -/
structure HttpResponse where
  status : Nat
  body_text : String
  chunks : List (List Nat)

/-- The inner `while len(buffer) >= 48000` loop of `run_tts`
(lines 222-236): repeatedly split a 48000-byte block off the front of the
buffer, resample it and yield it as a `TTSAudioRawFrame`.  `fuel` bounds
the iterations; every caller passes the buffer length, which is ample
since each iteration consumes 48000 bytes. -/
def drainBlocks (resample : List Nat → List Nat) : Nat → List Nat → List TTSFrame × List Nat
  | 0, buf => ([], buf)
  | fuel + 1, buf =>
    if 48000 ≤ buf.length then
      let rest := drainBlocks resample fuel (buf.drop 48000)
      (TTSFrame.ttsAudioRaw (resample (buf.take 48000)) :: rest.1, rest.2)
    else ([], buf)

/-- The `async for chunk in r.content.iter_chunked(...)` loop of `run_tts`
(lines 215-236): nonempty chunks extend the carry buffer, which is then
drained in 48000-byte blocks. -/
def chunkLoop (resample : List Nat → List Nat) :
    List (List Nat) → List Nat → List TTSFrame × List Nat
  | [], buf => ([], buf)
  | c :: cs, buf =>
    if 0 < c.length then
      let buf1 := buf ++ c
      let drained := drainBlocks resample buf1.length buf1
      let rest := chunkLoop resample cs drained.2
      (drained.1 ++ rest.1, rest.2)
    else chunkLoop resample cs buf

/-- Method `run_tts` (lines 171-246): with no studio speakers loaded it
logs and returns without yielding anything; on a non-200 response it
yields a single `ErrorFrame`; otherwise it yields `TTSStartedFrame`, the
resampled audio blocks, any remainder, and `TTSStoppedFrame`.  The
resampler is abstract; studio speakers reduce to presence or absence since
only the guard depends on them. -/
def run_tts (resample : List Nat → List Nat) (studio_speakers : Option Unit)
    (resp : HttpResponse) : List TTSFrame :=
  match studio_speakers with
  | none => []
  | some _ =>
    if resp.status ≠ 200 then
      [TTSFrame.errorFrame
        ("Error getting audio (status: " ++ toString resp.status ++ ", error: "
          ++ resp.body_text ++ ")")]
    else
      let looped := chunkLoop resample resp.chunks []
      let remainder :=
        if 0 < looped.2.length then [TTSFrame.ttsAudioRaw (resample looped.2)] else []
      TTSFrame.ttsStarted :: (looped.1 ++ remainder ++ [TTSFrame.ttsStopped])

end XTTS

namespace SmartTurn

/-- Evaluation of one silence append in the concrete traces: with the
default parameters and a one-sample chunk at 10 samples per second, the
chunk contributes exactly 100 ms; the decision is COMPLETE as soon as the
accumulator reaches 3000 ms. -/
theorem append_silence_step (st : SmartTurnState) (h : st.speech_triggered = true) (now : ℚ) :
    append_audio defaultParams traceRate st now [0] false =
      if 3000 ≤ st.silence_ms + 100 then
        (EndOfTurnState.COMPLETE,
          { audio_buffer := [], speech_triggered := false, silence_ms := 0,
            speech_start_time := none })
      else
        (EndOfTurnState.INCOMPLETE,
          { st with
            audio_buffer := st.audio_buffer ++ [(now, normalizeChunk [0])]
            silence_ms := st.silence_ms + 100 }) := by
  unfold append_audio
  norm_num [h, traceRate, defaultParams, _clear]
  rfl

/-- Invariant along the C1 trace: through the 29th silence chunk every call
returns INCOMPLETE, speech stays triggered, the accumulator holds exactly
100·n ms and the speech-start time recorded by the speech chunk is 0. -/
theorem c1_invariant (n : ℕ) (hn : n ≤ 29) :
    (c1_silences n).1 = EndOfTurnState.INCOMPLETE ∧
    (c1_silences n).2.speech_triggered = true ∧
    (c1_silences n).2.silence_ms = 100 * (n : ℚ) ∧
    (c1_silences n).2.speech_start_time = some 0 := by
  induction n with
  | zero =>
    refine ⟨?_, ?_, ?_, ?_⟩ <;> simp [c1_silences, append_audio, initialState]
  | succ n ih =>
    obtain ⟨h1, h2, h3, h4⟩ := ih (by omega)
    have hlt : ¬ (3000 ≤ 100 * (n : ℚ) + 100) := by
      have hq : (n : ℚ) ≤ 28 := by exact_mod_cast (by omega : n ≤ 28)
      linarith
    simp only [c1_silences]
    rw [append_silence_step _ h2, h3, if_neg hlt]
    refine ⟨rfl, by simp [h2], ?_, by simp [h4]⟩
    push_cast
    ring

/-- Invariant along the C9 trace: starting from the state an INCOMPLETE
`analyze_end_of_turn` leaves behind (empty buffer, still triggered),
silence-only chunks keep returning INCOMPLETE through the 29th while the
accumulator holds exactly 100·n ms. -/
theorem c9_invariant (n : ℕ) (hn : n ≤ 29) :
    (c9_silences n).1 = EndOfTurnState.INCOMPLETE ∧
    (c9_silences n).2.speech_triggered = true ∧
    (c9_silences n).2.silence_ms = 100 * (n : ℚ) := by
  induction n with
  | zero => refine ⟨rfl, rfl, by simp [c9_silences, clearedTriggered]⟩
  | succ n ih =>
    obtain ⟨h1, h2, h3⟩ := ih (by omega)
    have hlt : ¬ (3000 ≤ 100 * (n : ℚ) + 100) := by
      have hq : (n : ℚ) ≤ 28 := by exact_mod_cast (by omega : n ≤ 28)
      linarith
    simp only [c9_silences]
    rw [append_silence_step _ h2, h3, if_neg hlt]
    refine ⟨rfl, by simp [h2], ?_⟩
    push_cast
    ring

/-- C1: with `stop_secs = 3.0`, one 100 ms speech chunk followed by
successive 100 ms silence chunks makes `append_audio` return COMPLETE
exactly on the 30th silence chunk — the first call at which the trailing
silence accumulator reaches 3000 ms (it stands at 2900 ms after the
29th) — and INCOMPLETE on the speech chunk and every earlier silence
chunk. -/
theorem c1_silence_completion :
    (∀ k : ℕ, k ≤ 29 → (c1_silences k).1 = EndOfTurnState.INCOMPLETE) ∧
    (c1_silences 30).1 = EndOfTurnState.COMPLETE ∧
    (c1_silences 29).2.silence_ms = 2900 := by
  obtain ⟨h1, h2, h3, h4⟩ := c1_invariant 29 (le_refl 29)
  refine ⟨fun k hk => (c1_invariant k hk).1, ?_, ?_⟩
  · rw [show (30 : ℕ) = 29 + 1 from rfl, c1_silences]
    rw [append_silence_step _ h2, h3, if_pos (by norm_num)]
  · rw [h3]
    norm_num

/-- Witness for C1 at concrete inputs: the 7th silence chunk returns
INCOMPLETE and the 30th returns COMPLETE. -/
theorem c1_silence_completion_witness :
    (c1_silences 7).1 = EndOfTurnState.INCOMPLETE ∧
    (c1_silences 30).1 = EndOfTurnState.COMPLETE :=
  ⟨c1_silence_completion.1 7 (by norm_num), c1_silence_completion.2.1⟩

/-- C9: whenever `analyze_end_of_turn` returns INCOMPLETE it leaves exactly
the cleared-but-triggered state — empty buffer, zero silence accumulator,
no speech-start time, `speech_triggered` still true — and from that state
silence-only `append_audio` calls still reach a timer-based COMPLETE:
30 silence chunks of 100 ms do so. -/
theorem c9_incomplete_keeps_triggered (predict : List ℚ → Prediction)
    (p : SmartTurnParams) (sr : ℚ) (st st2 : SmartTurnState)
    (h : analyze_end_of_turn predict p sr st
      = Except.ok (EndOfTurnState.INCOMPLETE, st2)) :
    st2 = clearedTriggered ∧ (c9_silences 30).1 = EndOfTurnState.COMPLETE := by
  constructor
  · unfold analyze_end_of_turn at h
    cases hps : _process_speech_segment predict p sr st.speech_start_time st.audio_buffer with
    | error e => rw [hps] at h; exact absurd h (by simp)
    | ok s =>
      rw [hps] at h
      simp only [Except.ok.injEq, Prod.mk.injEq] at h
      obtain ⟨hs, hst⟩ := h
      subst hs
      rw [← hst]
      simp [_clear, USE_ONLY_LAST_VAD_SEGMENT, clearedTriggered]
      rfl
  · obtain ⟨h1, h2, h3⟩ := c9_invariant 29 (le_refl 29)
    rw [show (30 : ℕ) = 29 + 1 from rfl, c9_silences]
    rw [append_silence_step _ h2, h3, if_pos (by norm_num)]

/-- Evaluation of the segment extraction on the one-chunk state: the whole
single chunk is the segment. -/
theorem rawSegment_oneChunk :
    rawSegment defaultParams 0 [(0, [1/2])] = [1/2] := by
  norm_num [rawSegment, List.findIdx_cons, defaultParams]

/-- The clamp bound for the default parameters at 16 kHz is 128000
samples. -/
theorem maxSamples_default : maxSamples defaultParams 16000 = 128000 := by
  norm_num [maxSamples, defaultParams]
  rfl

/-- Evaluation of `analyze_end_of_turn` on the one-chunk triggered state:
the classifier receives the single normalized chunk and its prediction
decides the outcome; the state is cleared either way. -/
theorem analyze_oneChunkTriggered (predict : List ℚ → Prediction) :
    analyze_end_of_turn predict defaultParams 16000 oneChunkTriggered =
      if (predict [1/2]).prediction = 1 then
        Except.ok (EndOfTurnState.COMPLETE,
          { audio_buffer := [], speech_triggered := false, silence_ms := 0,
            speech_start_time := none })
      else Except.ok (EndOfTurnState.INCOMPLETE, clearedTriggered) := by
  unfold analyze_end_of_turn _process_speech_segment oneChunkTriggered
  simp only [rawSegment_oneChunk, maxSamples_default]
  norm_num [clampSegment, _clear, clearedTriggered, USE_ONLY_LAST_VAD_SEGMENT]
  split_ifs <;> rfl

/-- Witness for C9: a concrete INCOMPLETE analysis (classifier predicting
0 on the one-chunk state) leaves exactly the cleared-but-triggered state,
and the silence-only continuation completes. -/
theorem c9_incomplete_keeps_triggered_witness :
    clearedTriggered = clearedTriggered ∧ (c9_silences 30).1 = EndOfTurnState.COMPLETE :=
  c9_incomplete_keeps_triggered predictIncomplete defaultParams 16000 oneChunkTriggered
    clearedTriggered (by rw [analyze_oneChunkTriggered]; rfl)

/-- C2 counterexample: with a nonempty buffer and no recorded speech-start
time (the state one non-speech chunk leaves on a fresh analyzer),
`analyze_end_of_turn` raises a TypeError (line 114 computes
`None - pre_speech_ms / 1000`) instead of returning Incomplete. -/
theorem c2_degenerate_counterexample :
    analyze_end_of_turn predictIncomplete defaultParams 16000 untriggeredNonempty
      = Except.error "TypeError: unsupported operand types NoneType and float" := rfl

/-- C2 (amended): `analyze_end_of_turn` returns Incomplete without
consulting the classifier when the buffer is empty or when the extracted
segment has zero samples; the missing-speech-start-time case with a
nonempty buffer is not guarded and raises instead. -/
theorem c2_degenerate_incomplete (predict : List ℚ → Prediction) (p : SmartTurnParams)
    (sr : ℚ) (st : SmartTurnState) :
    (st.audio_buffer = [] →
      analyze_end_of_turn predict p sr st
        = Except.ok (EndOfTurnState.INCOMPLETE, clearedTriggered)) ∧
    (∀ t0, st.speech_start_time = some t0 →
      clampSegment (rawSegment p t0 st.audio_buffer) (maxSamples p sr) = [] →
      analyze_end_of_turn predict p sr st
        = Except.ok (EndOfTurnState.INCOMPLETE, clearedTriggered)) := by
  have key : _process_speech_segment predict p sr st.speech_start_time st.audio_buffer
        = Except.ok EndOfTurnState.INCOMPLETE →
      analyze_end_of_turn predict p sr st
        = Except.ok (EndOfTurnState.INCOMPLETE, clearedTriggered) := by
    intro hres
    unfold analyze_end_of_turn
    rw [hres]
    rfl
  constructor
  · intro h
    apply key
    unfold _process_speech_segment
    rw [h]
    rfl
  · intro t0 h hseg
    apply key
    unfold _process_speech_segment
    rw [h]
    by_cases hb : st.audio_buffer.isEmpty
    · rw [if_pos hb]
    · rw [if_neg hb]
      exact if_neg (by rw [hseg]; exact lt_irrefl 0)

/-- Witness for C2 (amended) at concrete states: the fresh empty-buffer
state, and a nonempty buffer holding a single zero-sample chunk. -/
theorem c2_degenerate_incomplete_witness :
    analyze_end_of_turn predictIncomplete defaultParams 16000 initialState
      = Except.ok (EndOfTurnState.INCOMPLETE, clearedTriggered) ∧
    analyze_end_of_turn predictIncomplete defaultParams 16000
      { audio_buffer := [(0, [])], speech_triggered := true, silence_ms := 0,
        speech_start_time := some 0 }
      = Except.ok (EndOfTurnState.INCOMPLETE, clearedTriggered) :=
  ⟨(c2_degenerate_incomplete predictIncomplete defaultParams 16000 initialState).1 rfl,
   (c2_degenerate_incomplete predictIncomplete defaultParams 16000
      { audio_buffer := [(0, [])], speech_triggered := true, silence_ms := 0,
        speech_start_time := some 0 }).2 0 rfl
     (by norm_num [rawSegment, clampSegment, List.findIdx_cons, defaultParams])⟩

/-- C3: after any COMPLETE decision — whether produced by the silence-timer
path of `append_audio` or by `analyze_end_of_turn` — the buffer is empty,
`speech_triggered` is false, the silence accumulator is 0 and the
speech-start timestamp is unset. -/
theorem c3_complete_resets (predict : List ℚ → Prediction) (p : SmartTurnParams)
    (sr : ℚ) (st : SmartTurnState) (now : ℚ) (samples : List ℤ) (b : Bool)
    (st1 st2 : SmartTurnState) :
    (append_audio p sr st now samples b = (EndOfTurnState.COMPLETE, st1) →
      st1.audio_buffer = [] ∧ st1.speech_triggered = false ∧
      st1.silence_ms = 0 ∧ st1.speech_start_time = none) ∧
    (analyze_end_of_turn predict p sr st = Except.ok (EndOfTurnState.COMPLETE, st2) →
      st2.audio_buffer = [] ∧ st2.speech_triggered = false ∧
      st2.silence_ms = 0 ∧ st2.speech_start_time = none) := by
  constructor
  · intro h
    unfold append_audio at h
    simp only [] at h
    split_ifs at h with h1 h2 h3
    · simp at h
    · simp only [Prod.mk.injEq] at h
      rw [← h.2]
      exact ⟨rfl, rfl, rfl, rfl⟩
    · simp at h
    · simp at h
  · intro h
    unfold analyze_end_of_turn at h
    cases hps : _process_speech_segment predict p sr st.speech_start_time st.audio_buffer with
    | error e => rw [hps] at h; exact absurd h (by simp)
    | ok s =>
      rw [hps] at h
      simp only [Except.ok.injEq, Prod.mk.injEq] at h
      obtain ⟨hs, hst⟩ := h
      subst hs
      rw [← hst]
      rw [if_pos (show (EndOfTurnState.COMPLETE == EndOfTurnState.COMPLETE
        || USE_ONLY_LAST_VAD_SEGMENT) = true from rfl)]
      exact ⟨rfl, rfl, rfl, rfl⟩

/-- Witness for C3 at concrete inputs: a 100 ms silence chunk appended at
2950 ms of accumulated silence completes via the timer path, and a
complete-predicting classifier completes via `analyze_end_of_turn`; both
leave the fully reset state. -/
theorem c3_complete_resets_witness :
    (clearedUntriggered.audio_buffer = [] ∧ clearedUntriggered.speech_triggered = false ∧
      clearedUntriggered.silence_ms = 0 ∧ clearedUntriggered.speech_start_time = none) ∧
    (clearedUntriggered.audio_buffer = [] ∧ clearedUntriggered.speech_triggered = false ∧
      clearedUntriggered.silence_ms = 0 ∧ clearedUntriggered.speech_start_time = none) :=
  ⟨(c3_complete_resets predictComplete defaultParams traceRate nearTimeout 1 [0] false
      clearedUntriggered clearedUntriggered).1
    (by rw [append_silence_step nearTimeout rfl 1, if_pos (by norm_num [nearTimeout])]; rfl),
   (c3_complete_resets predictComplete defaultParams 16000 oneChunkTriggered 1 [0] false
      clearedUntriggered clearedUntriggered).2
    (by rw [analyze_oneChunkTriggered]; rfl)⟩

/-- On a list sorted by timestamp, dropping the leading entries below a
cutoff removes exactly the entries below the cutoff. -/
theorem dropWhile_lt_eq_filter_le (cutoff : ℚ) :
    ∀ l : List (ℚ × List ℚ), l.Pairwise (fun a b => a.1 ≤ b.1) →
      l.dropWhile (fun c => decide (c.1 < cutoff))
        = l.filter (fun c => decide (cutoff ≤ c.1))
  | [], _ => rfl
  | a :: l, hp => by
    rw [List.pairwise_cons] at hp
    by_cases ha : a.1 < cutoff
    · rw [List.dropWhile_cons_of_pos (by simpa using ha),
        List.filter_cons_of_neg (by simpa using not_le.mpr ha)]
      exact dropWhile_lt_eq_filter_le cutoff l hp.2
    · rw [List.dropWhile_cons_of_neg (by simpa using ha),
        List.filter_cons_of_pos (by simpa using not_lt.mp ha)]
      congr 1
      symm
      rw [List.filter_eq_self]
      intro b hb
      simpa using le_trans (not_lt.mp ha) (hp.1 b hb)

/-- C4: `append_audio` with `is_speech = true` only appends — the previous
buffer survives unchanged with the new chunk at the tail; with
`is_speech = false` before speech has triggered, on a chronologically
ordered buffer the retained entries are exactly those within
`pre_speech_ms / 1000 + stop_secs + max_duration_secs` seconds of the
current time — every older chunk is removed from the head. -/
theorem c4_trim_policy (p : SmartTurnParams) (sr : ℚ) (st : SmartTurnState)
    (now : ℚ) (samples : List ℤ)
    (hsorted : st.audio_buffer.Pairwise (fun a b => a.1 ≤ b.1))
    (hnow : ∀ c ∈ st.audio_buffer, c.1 ≤ now) :
    (append_audio p sr st now samples true).2.audio_buffer
      = st.audio_buffer ++ [(now, normalizeChunk samples)] ∧
    (st.speech_triggered = false →
      (append_audio p sr st now samples false).2.audio_buffer
        = (st.audio_buffer ++ [(now, normalizeChunk samples)]).filter
            (fun c => decide (now - maxBufferTime p ≤ c.1))) := by
  constructor
  · rfl
  · intro ht
    have hpair : (st.audio_buffer ++ [(now, normalizeChunk samples)]).Pairwise
        (fun a b => a.1 ≤ b.1) := by
      rw [List.pairwise_append]
      refine ⟨hsorted, List.pairwise_singleton _ _, fun a ha b hb => ?_⟩
      simp only [List.mem_singleton] at hb
      subst hb
      exact hnow a ha
    simp only [append_audio, ht, Bool.false_eq_true, if_false]
    exact dropWhile_lt_eq_filter_le (now - maxBufferTime p) _ hpair

/-- Witness for C4 at a concrete input: a two-chunk sorted buffer appended
at time 10 with the default parameters. -/
theorem c4_trim_policy_witness :
    (append_audio defaultParams 16000 untriggeredNonempty 10 [0] true).2.audio_buffer
      = untriggeredNonempty.audio_buffer ++ [(10, normalizeChunk [0])] ∧
    (untriggeredNonempty.speech_triggered = false →
      (append_audio defaultParams 16000 untriggeredNonempty 10 [0] false).2.audio_buffer
        = (untriggeredNonempty.audio_buffer ++ [(10, normalizeChunk [0])]).filter
            (fun c => decide (10 - maxBufferTime defaultParams ≤ c.1))) :=
  c4_trim_policy defaultParams 16000 untriggeredNonempty 10 [0]
    (by simp [untriggeredNonempty]) (by simp [untriggeredNonempty])

/-- Dropping from a replicated list leaves a shorter replicated list. -/
theorem drop_replicate_helper (x : ℚ) :
    ∀ (m n : ℕ), (List.replicate n x).drop m = List.replicate (n - m) x
  | 0, n => by simp
  | m + 1, 0 => by simp
  | m + 1, n + 1 => by
    rw [List.replicate_succ, List.drop_succ_cons, drop_replicate_helper x m n,
      Nat.succ_sub_succ]

/-- C5 counterexample: with `max_duration_secs = 0` the clamp bound
`int(max_duration_secs * sample_rate)` is 0, a one-sample segment exceeds
it, and yet the Python slice `segment_audio[-0:]` keeps the whole segment
instead of the most recent 0 samples. -/
theorem c5_clamp_counterexample :
    maxSamples { stop_secs := 3, pre_speech_ms := 0, max_duration_secs := 0 } 16000 = 0 ∧
    clampSegment [(1:ℚ)]
      (maxSamples { stop_secs := 3, pre_speech_ms := 0, max_duration_secs := 0 } 16000)
      = [(1:ℚ)] ∧
    ([(1:ℚ)] : List ℚ) ≠ [] := by
  have h : maxSamples { stop_secs := 3, pre_speech_ms := 0, max_duration_secs := 0 } 16000 = 0 := by
    norm_num [maxSamples]
  refine ⟨h, ?_, by simp⟩
  rw [h]
  norm_num [clampSegment]

/-- C5 (amended): whenever the clamp bound is at least one sample and the
extracted segment exceeds it, only the most recent `max_samples` samples
are kept — the oldest are discarded, never the newest — and with
`max_duration_secs = 8` at 16 kHz the bound is exactly 128000 samples. -/
theorem c5_clamp_keeps_most_recent (seg : List ℚ) (p : SmartTurnParams) (sr : ℚ)
    (h1 : 1 ≤ maxSamples p sr) (h2 : maxSamples p sr < seg.length) :
    clampSegment seg (maxSamples p sr) = seg.drop (seg.length - maxSamples p sr) ∧
    (clampSegment seg (maxSamples p sr)).length = maxSamples p sr ∧
    maxSamples defaultParams 16000 = 128000 := by
  have hne : maxSamples p sr ≠ 0 := by omega
  refine ⟨?_, ?_, maxSamples_default⟩
  · unfold clampSegment
    rw [if_pos h2, if_neg hne]
  · unfold clampSegment
    rw [if_pos h2, if_neg hne, List.length_drop]
    omega

/-- Witness for C5 at a concrete input: a 10-second segment at 16 kHz
(160000 samples) is clamped to exactly the most recent 128000 samples. -/
theorem c5_clamp_keeps_most_recent_witness :
    1 ≤ maxSamples defaultParams 16000 ∧
    clampSegment (List.replicate 160000 (0:ℚ)) (maxSamples defaultParams 16000)
      = List.replicate 128000 (0:ℚ) := by
  have h1 : (1:ℕ) ≤ maxSamples defaultParams 16000 := by rw [maxSamples_default]; omega
  have h2 : maxSamples defaultParams 16000 < (List.replicate 160000 (0:ℚ)).length := by
    rw [maxSamples_default, List.length_replicate]; omega
  have h := (c5_clamp_keeps_most_recent (List.replicate 160000 (0:ℚ)) defaultParams 16000 h1 h2).1
  refine ⟨h1, ?_⟩
  rw [h, List.length_replicate, maxSamples_default, drop_replicate_helper]

/-- C7: every incoming int16 sample `s` is normalized to `s / 32768` before
buffering — `append_audio` stores exactly the chunk mapped through
`int16ToFloat` — and the normalized value lies in [−1, 1] for the whole
int16 range. -/
theorem c7_normalization (s : ℤ) (h1 : -32768 ≤ s) (h2 : s ≤ 32767)
    (p : SmartTurnParams) (sr : ℚ) (st : SmartTurnState) (now : ℚ) (samples : List ℤ) :
    int16ToFloat s = (s : ℚ) / 32768 ∧
    -1 ≤ int16ToFloat s ∧ int16ToFloat s ≤ 1 ∧
    (append_audio p sr st now samples true).2.audio_buffer
      = st.audio_buffer ++ [(now, samples.map int16ToFloat)] := by
  have hq1 : (-32768 : ℚ) ≤ (s : ℚ) := by exact_mod_cast h1
  have hq2 : (s : ℚ) ≤ 32767 := by exact_mod_cast h2
  refine ⟨rfl, ?_, ?_, rfl⟩
  · rw [int16ToFloat, le_div_iff₀ (by norm_num : (0:ℚ) < 32768)]
    linarith
  · rw [int16ToFloat, div_le_one (by norm_num : (0:ℚ) < 32768)]
    linarith

/-- Witness for C7 at the extreme samples −32768 and 32767. -/
theorem c7_normalization_witness :
    (int16ToFloat (-32768) = ((-32768 : ℤ) : ℚ) / 32768 ∧
      -1 ≤ int16ToFloat (-32768) ∧ int16ToFloat (-32768) ≤ 1 ∧
      (append_audio defaultParams 16000 initialState 0 [-32768, 32767] true).2.audio_buffer
        = initialState.audio_buffer ++ [(0, [-32768, 32767].map int16ToFloat)]) :=
  c7_normalization (-32768) (by norm_num) (by norm_num)
    defaultParams 16000 initialState 0 [-32768, 32767]

/-- C8: whenever the classifier is actually invoked — nonempty buffer,
recorded speech-start time, nonempty clamped segment — the decision is
COMPLETE exactly when the returned prediction equals 1, and INCOMPLETE for
every other prediction value. -/
theorem c8_prediction_maps (predict : List ℚ → Prediction) (p : SmartTurnParams)
    (sr : ℚ) (t0 : ℚ) (buf : List (ℚ × List ℚ)) (hbuf : buf ≠ [])
    (hseg : clampSegment (rawSegment p t0 buf) (maxSamples p sr) ≠ []) :
    _process_speech_segment predict p sr (some t0) buf
      = Except.ok
          (if (predict (clampSegment (rawSegment p t0 buf) (maxSamples p sr))).prediction = 1
            then EndOfTurnState.COMPLETE else EndOfTurnState.INCOMPLETE) := by
  unfold _process_speech_segment
  rw [if_neg (by simpa [List.isEmpty_iff] using hbuf)]
  exact if_pos (List.length_pos.mpr hseg)

/-- Witness for C8 at concrete inputs: the one-chunk buffer with a
complete-predicting classifier. -/
theorem c8_prediction_maps_witness :
    _process_speech_segment predictComplete defaultParams 16000 (some 0) [(0, [1/2])]
      = Except.ok
          (if (predictComplete (clampSegment (rawSegment defaultParams 0 [(0, [1/2])])
                (maxSamples defaultParams 16000))).prediction = 1
            then EndOfTurnState.COMPLETE else EndOfTurnState.INCOMPLETE) :=
  c8_prediction_maps predictComplete defaultParams 16000 0 [(0, [1/2])]
    (by simp)
    (by rw [rawSegment_oneChunk, maxSamples_default]; norm_num [clampSegment])

end SmartTurn

/-- C6 counterexample: `run_tts` with no studio speakers loaded emits
nothing at all — even against a faulty status-500 response no ErrorFrame
is pushed, the request is dropped with only an error log — and `run_stt`
with no connected socket likewise drops the audio with only a warning,
yielding no ErrorFrame. -/
theorem c6_fault_counterexample :
    XTTS.run_tts id none { status := 500, body_text := "boom", chunks := [] } = [] ∧
    Sarvam.run_stt false Sarvam.SendOutcome.ok = [Sarvam.STTEmit.yieldNone] :=
  ⟨rfl, rfl⟩

/-- C6 (amended): the faults arising during the external calls themselves
are converted into Error frames — an exception while sending audio in
`run_stt` pushes an ErrorFrame carrying the fault, and a non-200 synthesis
response in `run_tts` yields an ErrorFrame carrying status and body —
while the early guard paths (socket not connected, studio speakers
missing) return without emitting an ErrorFrame, dropping the data with
only a log. -/
theorem c6_fault_paths_emit_error (m : String) (resample : List Nat → List Nat)
    (resp : XTTS.HttpResponse) (hstatus : resp.status ≠ 200) :
    Sarvam.run_stt true (Sarvam.SendOutcome.raised m)
      = [Sarvam.STTEmit.pushError ("Failed to send audio: " ++ m),
         Sarvam.STTEmit.yieldNone] ∧
    XTTS.run_tts resample (some ()) resp
      = [XTTS.TTSFrame.errorFrame ("Error getting audio (status: " ++ toString resp.status
          ++ ", error: " ++ resp.body_text ++ ")")] ∧
    XTTS.run_tts resample none resp = [] := by
  refine ⟨rfl, ?_, rfl⟩
  unfold XTTS.run_tts
  exact if_pos hstatus

/-- Witness for C6 (amended) at a concrete faulty response. -/
theorem c6_fault_paths_emit_error_witness :
    Sarvam.run_stt true (Sarvam.SendOutcome.raised "network down")
      = [Sarvam.STTEmit.pushError ("Failed to send audio: " ++ "network down"),
         Sarvam.STTEmit.yieldNone] ∧
    XTTS.run_tts id (some ()) { status := 500, body_text := "boom", chunks := [] }
      = [XTTS.TTSFrame.errorFrame ("Error getting audio (status: "
          ++ toString (500 : Nat) ++ ", error: " ++ "boom" ++ ")")] ∧
    XTTS.run_tts id none { status := 500, body_text := "boom", chunks := [] } = [] :=
  c6_fault_paths_emit_error "network down" id
    { status := 500, body_text := "boom", chunks := [] } (by norm_num)

/-- C10: the two Sarvam language tables are mutually inverse bijections on
the thirteen supported languages and codes, and every other language or
code falls back to the Hindi default ("hi-IN" and `Language.HI_IN`). -/
theorem c10_sarvam_language_roundtrip :
    (∀ l ∈ Sarvam.supportedLanguages,
      Sarvam.map_language_code_to_enum (Sarvam.language_to_sarvam_language l) = l) ∧
    (∀ c ∈ Sarvam.supportedCodes,
      Sarvam.language_to_sarvam_language (Sarvam.map_language_code_to_enum c) = c) ∧
    (∀ l : Pipecat.Language, l ∉ Sarvam.supportedLanguages →
      Sarvam.language_to_sarvam_language l = "hi-IN") ∧
    (∀ c : String, c ∉ Sarvam.supportedCodes →
      Sarvam.map_language_code_to_enum c = Pipecat.Language.HI_IN) := by
  refine ⟨by decide, by decide, ?_, ?_⟩
  · intro l hl
    cases l <;> first | rfl | (exact absurd (by decide) hl)
  · intro c hc
    have h : ∀ s ∈ Sarvam.supportedCodes, c ≠ s := fun s hs he => hc (he ▸ hs)
    unfold Sarvam.map_language_code_to_enum
    rw [if_neg (h "bn-IN" (by decide)),
      if_neg (h "gu-IN" (by decide)),
      if_neg (h "hi-IN" (by decide)),
      if_neg (h "kn-IN" (by decide)),
      if_neg (h "ml-IN" (by decide)),
      if_neg (h "mr-IN" (by decide)),
      if_neg (h "ta-IN" (by decide)),
      if_neg (h "te-IN" (by decide)),
      if_neg (h "pa-IN" (by decide)),
      if_neg (h "od-IN" (by decide)),
      if_neg (h "en-US" (by decide)),
      if_neg (h "en-IN" (by decide)),
      if_neg (h "as-IN" (by decide))]

/-- Witness for C10 at concrete inputs: a supported language and code
round-trip, an unsupported language and an unknown code default to
Hindi. -/
theorem c10_sarvam_language_roundtrip_witness :
    Sarvam.map_language_code_to_enum (Sarvam.language_to_sarvam_language Pipecat.Language.BN_IN)
      = Pipecat.Language.BN_IN ∧
    Sarvam.language_to_sarvam_language (Sarvam.map_language_code_to_enum "en-US") = "en-US" ∧
    Sarvam.language_to_sarvam_language Pipecat.Language.FR = "hi-IN" ∧
    Sarvam.map_language_code_to_enum "xx-XX" = Pipecat.Language.HI_IN :=
  ⟨c10_sarvam_language_roundtrip.1 Pipecat.Language.BN_IN (by decide),
   c10_sarvam_language_roundtrip.2.1 "en-US" (by decide),
   c10_sarvam_language_roundtrip.2.2.1 Pipecat.Language.FR (by decide),
   c10_sarvam_language_roundtrip.2.2.2 "xx-XX" (by decide)⟩
